import Mathlib

/-!
Verification of the Crazyflie control-affine system model
(src/neural_clbf/systems/crazyflie.py) and of the scenario-building fragment of
the single-track-car rollout script
(src/neural_clbf/experiments/data_generation/stcar_s_curve_save_clbf_qp_data.py).

Python floats are idealised as exact rationals (or reals for the trigonometric
equilibrium analysis); Python-level failures (TypeError, NameError, KeyError,
RuntimeError) are made explicit through an error monad.
-/

/-- The Python-level failures the translated code can raise.  The base class is
not part of src/, so the validation failure it raises is modelled from the spec
as its own constructor. -/
inductive PyError where
  | typeError (msg : String)
  | nameError (name : String)
  | keyError (key : String)
  | runtimeError (msg : String)
  | invalidParameter (msg : String)
deriving Repr, DecidableEq

/-- Scenario, the parameter dictionary: a mapping from parameter name to scalar
value, modelled as an association list with the first binding of a key the live
one (Python dicts have unique keys, so the two views agree). -/
abbrev Scenario := List (String × ℚ)

/-- Reading a key of a Scenario dictionary, returning none when absent. -/
def Scenario.get? (p : Scenario) (k : String) : Option ℚ :=
  (p.find? (fun kv => kv.1 == k)).map (fun kv => kv.2)

/-- The Python membership test k in params. -/
def Scenario.containsKey (p : Scenario) (k : String) : Bool :=
  (Scenario.get? p k).isSome

/-- The Python dict subscript params[k]: raises KeyError when the key is absent. -/
def dictGetItem (p : Scenario) (k : String) : Except PyError ℚ :=
  match Scenario.get? p k with
  | some v => .ok v
  | none => .error (.keyError k)

/-- Python short-circuit and over possibly-raising boolean expressions: the
right operand is a thunk and is evaluated only when the left operand is True. -/
def pyAnd (a : Except PyError Bool) (b : Unit → Except PyError Bool) :
    Except PyError Bool :=
  match a with
  | .error e => .error e
  | .ok false => .ok false
  | .ok true => b ()

/-- Whether an evaluation finished without raising. -/
def isOkE {α : Type} : Except PyError α → Bool
  | .ok _ => true
  | .error _ => false

/-- Number of state dimensions of the Crazyflie (crazyflie.py line 34). -/
def Crazyflie.N_DIMS : Nat := 6

/-- Number of control dimensions of the Crazyflie (line 35). -/
def Crazyflie.N_CONTROLS : Nat := 4

/-- State index constants, lines 38-44. -/
def Crazyflie.X : Fin 6 := 0

def Crazyflie.Y : Fin 6 := 1

def Crazyflie.Z : Fin 6 := 2

def Crazyflie.VX : Fin 6 := 3

def Crazyflie.VY : Fin 6 := 4

def Crazyflie.VZ : Fin 6 := 5

/-- Control index constants, lines 47-50. -/
def Crazyflie.F : Fin 4 := 0

def Crazyflie.PHI : Fin 4 := 1

def Crazyflie.THETA : Fin 4 := 2

def Crazyflie.PSI : Fin 4 := 3

/-- Crazyflie.validate_params, lines 73-89:
valid = True; valid = valid and ("m" in params); valid = valid and (params["m"] > 0).
Both updates use the Python short-circuit and, so the subscript params["m"] is
evaluated only when the key is present. -/
def validate_params (params : Scenario) : Except PyError Bool :=
  let valid : Except PyError Bool := .ok true
  let valid := pyAnd valid (fun _ => .ok (Scenario.containsKey params "m"))
  let valid := pyAnd valid (fun _ =>
    (dictGetItem params "m").map (fun m => decide (m > 0)))
  valid

/-- A constructed Crazyflie system: it owns the nominal scenario. -/
structure CrazyflieSystem where
  nominal_params : Scenario

/-- Modelled from the spec: ControlAffineSystem.__init__, the abstract base
class constructor that Crazyflie.__init__ (lines 52-71) delegates to, is not
under src/.  Per the spec it validates the scenario synchronously at
construction, raising InvalidParameterError when the concrete system's
validate_params returns false, before any tensor operation is attempted and
without substituting any default.  The validate_params used here is the
Crazyflie's own, translated above from the source. -/
def crazyflieInit (nominal_params : Scenario) : Except PyError CrazyflieSystem :=
  match validate_params nominal_params with
  | .error e => .error e
  | .ok true => .ok ⟨nominal_params⟩
  | .ok false => .error (.invalidParameter "nominal_params not valid")

/-- A single row of a batched state tensor: six scalar components. -/
abbrev StateRow := Fin 6 → ℚ

/-- The squared euclidean norm of a state row.  The source compares
x.norm(dim=-1) against nonnegative constant radii; each such comparison is
represented below by the equivalent comparison of this squared norm against the
squared radius. -/
def normSq (r : StateRow) : ℚ :=
  r 0 ^ 2 + r 1 ^ 2 + r 2 ^ 2 + r 3 ^ 2 + r 4 ^ 2 + r 5 ^ 2

/-- safe_mask local constant, line 148. -/
def safe_z_floor : ℚ := 0.3

/-- safe_mask local constant, line 149. -/
def safe_z_ceiling : ℚ := 4.0

/-- safe_mask local constant, line 152. -/
def safe_radius : ℚ := 4

/-- unsafe_mask local constant, line 167. -/
def unsafe_z_floor : ℚ := 0.3

/-- unsafe_mask local constant, line 168. -/
def unsafe_z_ceiling : ℚ := 4.0

/-- unsafe_mask local constant, line 169. -/
def unsafe_radius : ℚ := 3.5

/-- The pointwise conjunction of the three boolean tensors built inside
Crazyflie.safe_mask (lines 155-157): x[:, Z] <= safe_z_ceiling,
x[:, Z] >= safe_z_floor and x.norm(dim=-1) <= safe_radius.  This is the
safe-region predicate those three condition tensors evidently describe; the
radius comparison is written on squared norms. -/
def safeCondB (r : StateRow) : Bool :=
  decide (r Crazyflie.Z ≤ safe_z_ceiling) &&
    decide (safe_z_floor ≤ r Crazyflie.Z) &&
    decide (normSq r ≤ safe_radius ^ 2)

/-- The pointwise disjunction of the three boolean tensors built inside
Crazyflie.unsafe_mask (lines 171-173): x[:, Z] < unsafe_z_floor,
x[:, Z] > unsafe_z_ceiling and x.norm(dim=-1) > unsafe_radius, the radius
comparison again written on squared norms. -/
def unsafeCondB (r : StateRow) : Bool :=
  decide (r Crazyflie.Z < unsafe_z_floor) ||
    decide (unsafe_z_ceiling < r Crazyflie.Z) ||
    decide (unsafe_radius ^ 2 < normSq r)

/-- The call torch.logical_and(a, b, c) with three positional arguments, as it
appears on lines 155-157.  The Python signature of torch.logical_and is
logical_and(input, other, *, out=None): the out parameter is keyword-only, so a
third positional argument raises a TypeError before anything is computed. -/
def torchLogicalAnd3 (a b c : List Bool) : Except PyError (List Bool) :=
  .error (.typeError "logical_and takes 2 positional arguments but 3 were given")

/-- The call torch.logical_or(a, b, c) with three positional arguments, as it
appears on lines 171-173; torch.logical_or also takes out as keyword-only, so
the call raises a TypeError. -/
def torchLogicalOr3 (a b c : List Bool) : Except PyError (List Bool) :=
  .error (.typeError "logical_or takes 2 positional arguments but 3 were given")

/-- Crazyflie.safe_mask, lines 142-159: builds the three boolean condition
tensors and passes them positionally to torch.logical_and, whose result it
returns.  The call raises, so the function always raises. -/
def safe_mask (x : List StateRow) : Except PyError (List Bool) :=
  torchLogicalAnd3
    (x.map (fun r => decide (r Crazyflie.Z ≤ safe_z_ceiling)))
    (x.map (fun r => decide (safe_z_floor ≤ r Crazyflie.Z)))
    (x.map (fun r => decide (normSq r ≤ safe_radius ^ 2)))

/-- Crazyflie.unsafe_mask, lines 161-173: builds the three boolean condition
tensors, passes them positionally to torch.logical_or (which raises a
TypeError), binds the result to a local variable, and then falls off the end of
the function body with no return statement — so even if the call returned, the
Python function would return None rather than a tensor.  The value is the
returned object: none models Python None. -/
def unsafe_mask (x : List StateRow) : Except PyError (Option (List Bool)) :=
  (torchLogicalOr3
    (x.map (fun r => decide (r Crazyflie.Z < unsafe_z_floor)))
    (x.map (fun r => decide (unsafe_z_ceiling < r Crazyflie.Z)))
    (x.map (fun r => decide (unsafe_radius ^ 2 < normSq r)))).map (fun _ => none)

/-- The unsafe_mask body under the charitable reading in which the three
positional arguments of torch.logical_or are taken as the evidently intended
three-way disjunction: the mask is bound to the local variable (line 171) but
the function body still ends without a return statement, so the call returns
Python None. -/
def unsafe_mask_result (x : List StateRow) : Option (List Bool) :=
  let _mask := x.map unsafeCondB
  none

/-- The goal-region predicate built inside Crazyflie.goal_mask, lines 186-201:
a mask of ones (line 192), conjoined in place with near_goal, the comparison
x.norm(dim=-1) <= 0.3 (lines 195-196, written here on squared norms), and then
conjoined in place with the safe-region condition (line 199, the comment there:
the goal set has to be a subset of the safe set). -/
def goalCondB (r : StateRow) : Bool :=
  (true && decide (normSq r ≤ (0.3 : ℚ) ^ 2)) && safeCondB r

/-- Crazyflie.goal_mask at runtime, lines 186-201: line 199 evaluates
self.safe_mask(x), which raises, so the TypeError propagates. -/
def goal_mask (x : List StateRow) : Except PyError (List Bool) :=
  let gm := x.map (fun _ => true)
  let near_goal := x.map (fun r => decide (normSq r ≤ (0.3 : ℚ) ^ 2))
  let gm := List.zipWith and gm near_goal
  (safe_mask x).map (fun sm => List.zipWith and gm sm)

/-- The tensor item assignment f[:, i] = v, where f has shape (b, n, 1) and the
value v has shape (b,), as on lines 219-221.  PyTorch expands the value to the
shape of the indexing result f[:, i], which is (b, 1); a tensor of shape (b,)
expands to (b, 1) only when b = 1 (the trailing dimension of size b cannot be
expanded into size 1 otherwise), so for every batch size other than 1 the
assignment raises a RuntimeError. -/
def setItemCol (f : List (Fin 6 → ℚ)) (i : Fin 6) (v : List ℚ) :
    Except PyError (List (Fin 6 → ℚ)) :=
  if v.length = 1 then
    .ok (List.zipWith (fun row a => Function.update row i a) f v)
  else
    .error (.runtimeError "cannot expand batch vector into batch x 1 slice")

/-- Crazyflie._f, lines 203-228: f = torch.zeros((batch_size, n_dims, 1)); the
three position rows are assigned the velocity columns (lines 219-221, each a
setItemCol assignment); the VZ row is filled with the scalar -9.81 (line 224, a
scalar fill, which broadcasts for every batch size).  The params argument is
never read. -/
def crazyflie_f (x : List StateRow) (params : Scenario) :
    Except PyError (List (Fin 6 → ℚ)) := do
  let batch_size := x.length
  let f : List (Fin 6 → ℚ) := List.replicate batch_size (fun _ => 0)
  let f ← setItemCol f Crazyflie.X (x.map (fun r => r Crazyflie.VX))
  let f ← setItemCol f Crazyflie.Y (x.map (fun r => r Crazyflie.VY))
  let f ← setItemCol f Crazyflie.Z (x.map (fun r => r Crazyflie.VZ))
  let f := f.map (fun row => Function.update row Crazyflie.VZ (-9.81 : ℚ))
  pure f

/-- Crazyflie._g, lines 230-261: after m = params["m"] (line 246, a KeyError
when the key is absent) and the trigonometric factors of lines 249-252 (which
index the state tensor with the control indices THETA = 2 and PHI = 1, that is,
with the z and y position columns), line 255 reads Crazuflie.F — Crazuflie is
an undefined name, a typo for Crazyflie — so every call that reaches it raises
a NameError and the function can never return a tensor.  The tensor writes of
lines 253-254 happen before the raise but are not observable, so they are not
modelled. -/
def crazyflie_g (x : List StateRow) (params : Scenario) :
    Except PyError (List (Fin 6 → Fin 4 → ℚ)) :=
  (dictGetItem params "m").bind (fun _m => .error (.nameError "Crazuflie"))

/-- The drift _f of lines 203-228 as the mathematical vector field it writes,
over the reals, for a single state row: position derivatives are the
velocities, the VZ component is the constant gravity term -9.81, and the VX
and VY components stay zero. -/
noncomputable def f_intended (x : Fin 6 → ℝ) : Fin 6 → ℝ := fun i =>
  if i = Crazyflie.X then x Crazyflie.VX
  else if i = Crazyflie.Y then x Crazyflie.VY
  else if i = Crazyflie.Z then x Crazyflie.VZ
  else if i = Crazyflie.VZ then -(9.81 : ℝ)
  else 0

/-- The control matrix _g of lines 230-261 with the line-255 typo repaired
(Crazuflie read as Crazyflie), over the reals, for a single state row: only the
thrust column F is populated (the orientation rows of line 259 are commented
out in the source), with s_theta = sin(x[:, THETA]) and s_phi = sin(x[:, PHI])
taken exactly as the source takes them, from state columns 2 and 1:
g[VX, F] = s_theta / m, g[VY, F] = -s_phi * c_theta / m,
g[VZ, F] = c_phi * c_theta / m. -/
noncomputable def g_intended (x : Fin 6 → ℝ) (m : ℝ) : Fin 6 → Fin 4 → ℝ :=
  fun i j =>
    if j = Crazyflie.F then
      if i = Crazyflie.VX then Real.sin (x 2) / m
      else if i = Crazyflie.VY then -Real.sin (x 1) * Real.cos (x 2) / m
      else if i = Crazyflie.VZ then Real.cos (x 1) * Real.cos (x 2) / m
      else 0
    else 0

/-- Crazyflie.u_eq, lines 263-267: u_eq = torch.zeros((1, n_controls));
u_eq[0, F] = m * 9.81, over the reals. -/
noncomputable def u_eq_intended (m : ℝ) : Fin 4 → ℝ := fun j =>
  if j = Crazyflie.F then m * (9.81 : ℝ) else 0

/-- The equilibrium state of the claim: the origin of the state space. -/
noncomputable def xEqR : Fin 6 → ℝ := fun _ => 0

/-- A Python heap of dict objects; a dict reference is an index into it.  Used
to model the aliasing behaviour of the scenario-building loop of doMain,
stcar_s_curve_save_clbf_qp_data.py lines 28-54. -/
abbrev Heap := List Scenario

/-- Dereferencing a dict reference. -/
def heapGet (h : Heap) (r : Nat) : Scenario :=
  h.getD r []

/-- The Python dict item assignment d[k] = v on the mapping itself: overwrites
the value when the key is present, appends a new entry otherwise. -/
def dictSetValue (d : Scenario) (k : String) (v : ℚ) : Scenario :=
  if (Scenario.get? d k).isSome then
    d.map (fun kv => if kv.1 == k then (k, v) else kv)
  else d ++ [(k, v)]

/-- copy.copy on a dict object: allocates a fresh dict holding the same
key-value pairs and returns a reference to the new object (script line 51). -/
def pyCopyDict (h : Heap) (r : Nat) : Heap × Nat :=
  (h ++ [heapGet h r], h.length)

/-- An in-place item assignment through a dict reference (script line 52). -/
def pySetItem (h : Heap) (r : Nat) (k : String) (v : ℚ) : Heap :=
  h.set r (dictSetValue (heapGet h r) k v)

/-- The nominal_params literal of doMain, script lines 28-33. -/
def doMain_nominal_params : Scenario :=
  [("psi_ref", 1.0), ("v_ref", 10.0), ("a_ref", 0.0), ("omega_ref", 0.0)]

/-- The omega_ref_vals literal of doMain, script line 49. -/
def omega_ref_vals : List ℚ := [-1.5, 1.5]

/-- The scenario-building loop of doMain, script lines 47-54: the nominal dict
is heap object 0; for each omega_ref value, s = copy(nominal_params) allocates
a fresh dict, s["omega_ref"] = omega_ref mutates that fresh dict in place, and
its reference is appended to the scenario list.  The result is the final heap,
the reference to nominal_params, and the list of scenario references. -/
def buildScenarios : Heap × Nat × List Nat :=
  let h0 : Heap := [doMain_nominal_params]
  let nominalRef : Nat := 0
  let step := fun (acc : Heap × List Nat) (omega : ℚ) =>
    let (h, refs) := acc
    let (h, sRef) := pyCopyDict h nominalRef
    let h := pySetItem h sRef "omega_ref" omega
    (h, refs ++ [sRef])
  let (h, refs) := omega_ref_vals.foldl step (h0, [])
  (h, nominalRef, refs)

/-- The upper state limits of lines 104-123: 4 on the three positions, 8 on the
three velocities. -/
def state_upper_limit : StateRow := fun i =>
  if i = Crazyflie.X then 4.0
  else if i = Crazyflie.Y then 4.0
  else if i = Crazyflie.Z then 4.0
  else 8.0

/-- The lower state limits of lines 120-121: the negated upper limits, with the
Z component raised to 0. -/
def state_lower_limit : StateRow := fun i =>
  if i = Crazyflie.Z then 0 else -(state_upper_limit i)

/-- Componentwise membership of a state row in the state_limits box. -/
def insideStateLimits (r : StateRow) : Prop :=
  ∀ i : Fin 6, state_lower_limit i ≤ r i ∧ r i ≤ state_upper_limit i

/-- A state row with z = 3.8 and every other component zero: inside the safe
z-band and the safe radius, and strictly outside the unsafe radius. -/
def xOverlap : StateRow := fun i => if i = Crazyflie.Z then 3.8 else 0

/-- The zero state row (also the equilibrium state). -/
def xZero : StateRow := fun _ => 0

/-- A state row with every component 1: strictly inside the state_limits box. -/
def xOnes : StateRow := fun _ => 1

/-- A state row on the goal-region boundary: z = 0.3, all else zero. -/
def xGoal : StateRow := fun i => if i = Crazyflie.Z then 0.3 else 0

/-- A one-key scenario with unit mass. -/
def paramsMOne : Scenario := [("m", 1)]

/-- The value of validate_params: it never raises, and it yields True exactly
when the key m is present with a positive value.  The short-circuit of the
Python and protects the subscript when the key is absent. -/
theorem validate_params_eq (p : Scenario) :
    validate_params p =
      .ok ((Scenario.get? p "m").elim false (fun m => decide (0 < m))) := by
  unfold validate_params pyAnd Scenario.containsKey dictGetItem
  cases hm : Scenario.get? p "m" <;> simp [hm, Except.map]

/-- C1: the claim that safe_mask and unsafe_mask are never both true on a row
fails on the code.  At the state (0, 0, 3.8, 0, 0, 0) the safe-region
condition and the unsafe-region condition built by the two mask bodies both
hold, because the safe radius 4 exceeds the unsafe radius 3.5; moreover the
runtime unsafe_mask cannot even produce a boolean row, since its
three-positional-argument torch.logical_or call raises a TypeError. -/
theorem masks_overlap_at_annulus_point :
    safeCondB xOverlap = true ∧ unsafeCondB xOverlap = true ∧
      unsafe_mask [xOverlap] =
        .error (.typeError "logical_or takes 2 positional arguments but 3 were given") := by
  refine ⟨?_, ?_, rfl⟩
  · simp [safeCondB, xOverlap, normSq, Crazyflie.Z, safe_z_ceiling, safe_z_floor,
      safe_radius]
    norm_num
  · simp [unsafeCondB, xOverlap, normSq, Crazyflie.Z, unsafe_z_ceiling, unsafe_z_floor,
      unsafe_radius]
    norm_num

/-- C2: at the equilibrium the claimed identity f + g u_eq = 0 does hold for
the vector field the code writes, with the line-255 typo repaired, for every
mass m > 0; but the code itself cannot evaluate it, because _g raises a
NameError on the undefined name Crazuflie at every call, in particular at the
equilibrium state with the validated scenario m = 1. -/
theorem equilibrium_identity_intended_but_g_raises :
    crazyflie_g [xZero] paramsMOne = .error (.nameError "Crazuflie") ∧
    ∀ m : ℝ, 0 < m → ∀ i : Fin 6,
      f_intended xEqR i + ∑ j : Fin 4, g_intended xEqR m i j * u_eq_intended m j = 0 := by
  refine ⟨rfl, ?_⟩
  intro m hm i
  have hm0 : m ≠ 0 := ne_of_gt hm
  fin_cases i <;>
    simp [f_intended, g_intended, u_eq_intended, xEqR, Fin.sum_univ_four,
      Crazyflie.X, Crazyflie.Y, Crazyflie.Z, Crazyflie.VX, Crazyflie.VY, Crazyflie.VZ,
      Crazyflie.F] <;>
    field_simp

theorem equilibrium_identity_intended_witness :
    (0 : ℝ) < 1 ∧ ∀ i : Fin 6,
      f_intended xEqR i + ∑ j : Fin 4, g_intended xEqR 1 i j * u_eq_intended 1 j = 0 :=
  ⟨one_pos, equilibrium_identity_intended_but_g_raises.2 1 one_pos⟩

/-- C3: the shape contract fails on the code.  For a batch of two states _f
raises a RuntimeError (each of lines 219-221 assigns a batch-length vector
into a slice of shape (batch, 1), which PyTorch cannot broadcast for batch
sizes other than 1); _g raises a NameError for every batch; only _f at batch
size 1 returns successfully. -/
theorem shape_contract_broken :
    crazyflie_f [xZero, xZero] paramsMOne =
        .error (.runtimeError "cannot expand batch vector into batch x 1 slice") ∧
      crazyflie_g [xZero] paramsMOne = .error (.nameError "Crazuflie") ∧
      isOkE (crazyflie_f [xZero] paramsMOne) = true :=
  ⟨rfl, rfl, rfl⟩

/-- C4: unsafe_mask never returns a boolean vector: the call itself raises a
TypeError from the three-positional-argument torch.logical_or, and under the
charitable reading of that call as the intended disjunction the function body
still ends without a return statement, so it returns Python None. -/
theorem unsafe_mask_returns_no_vector :
    unsafe_mask [xOnes] =
        .error (.typeError "logical_or takes 2 positional arguments but 3 were given") ∧
      unsafe_mask_result [xOnes] = none :=
  ⟨rfl, rfl⟩

/-- C5: the claim that _f and _g evaluate without error inside the state_limits
box fails on the code: at the state (1, 1, 1, 1, 1, 1), which lies strictly
inside the box, _f (batch size 1) does succeed, but _g raises a NameError on
the undefined name Crazuflie. -/
theorem dynamics_raise_inside_limits :
    insideStateLimits xOnes ∧
      isOkE (crazyflie_f [xOnes] paramsMOne) = true ∧
      crazyflie_g [xOnes] paramsMOne = .error (.nameError "Crazuflie") := by
  refine ⟨?_, rfl, rfl⟩
  intro i
  fin_cases i <;>
    simp [state_lower_limit, state_upper_limit, xOnes, Crazyflie.X, Crazyflie.Y,
      Crazyflie.Z] <;>
    norm_num

/-- C6: constructing a Crazyflie with a scenario that lacks the key m, or whose
mass is not positive, fails with InvalidParameterError: validate_params (from
the source) returns False in both cases and the base constructor (modelled
from the spec) raises before any tensor operation. -/
theorem construction_fails_fast (p : Scenario)
    (h : Scenario.get? p "m" = none ∨ ∃ m : ℚ, Scenario.get? p "m" = some m ∧ m ≤ 0) :
    crazyflieInit p = .error (.invalidParameter "nominal_params not valid") := by
  have hv : validate_params p = .ok false := by
    rw [validate_params_eq]
    rcases h with h1 | ⟨m, hm, hm0⟩
    · simp [h1]
    · simp [hm, not_lt.mpr hm0]
  simp [crazyflieInit, hv]

theorem construction_fails_fast_witness :
    (Scenario.get? ([] : Scenario) "m" = none ∨
        ∃ m : ℚ, Scenario.get? ([] : Scenario) "m" = some m ∧ m ≤ 0) ∧
      crazyflieInit [] = .error (.invalidParameter "nominal_params not valid") :=
  ⟨Or.inl rfl, construction_fails_fast [] (Or.inl rfl)⟩

/-- C7: validate_params is a pure predicate: it always returns a boolean
without raising, and it returns True exactly when the key m is present with a
positive value; in particular a missing key yields False rather than a
KeyError, thanks to the short-circuit of the Python and. -/
theorem validate_params_pure_predicate (p : Scenario) :
    (∃ b : Bool, validate_params p = .ok b) ∧
      (validate_params p = .ok true ↔
        ∃ m : ℚ, Scenario.get? p "m" = some m ∧ 0 < m) := by
  rw [validate_params_eq]
  cases hm : Scenario.get? p "m"
  · simp
  · simp

theorem validate_params_pure_predicate_witness :
    validate_params paramsMOne = .ok true :=
  (validate_params_pure_predicate paramsMOne).2.mpr ⟨1, rfl, one_pos⟩

/-- C8: the goal region is a subset of the safe region: the goal-region
condition built by goal_mask conjoins the safe-region condition into its
result (line 199), so whenever it holds on a row the safe-region condition
holds on that row. -/
theorem goal_region_subset_safe_region (r : StateRow) (h : goalCondB r = true) :
    safeCondB r = true := by
  simp only [goalCondB, Bool.and_eq_true] at h
  exact h.2

theorem goal_region_subset_safe_region_witness :
    goalCondB xGoal = true ∧ safeCondB xGoal = true := by
  have hg : goalCondB xGoal = true := by
    simp [goalCondB, safeCondB, xGoal, normSq, Crazyflie.Z, safe_z_ceiling,
      safe_z_floor, safe_radius]
    norm_num
  exact ⟨hg, goal_region_subset_safe_region xGoal hg⟩

/-- C9: building the two-element scenario list in doMain leaves the original
nominal_params dict unchanged: afterwards it is still exactly the literal of
lines 28-33, mapping psi_ref to 1.0, v_ref to 10.0, a_ref to 0.0 and
omega_ref to 0.0, while the two appended scenarios carry omega_ref -1.5 and
1.5 — each scenario is a fresh copy mutated only in its omega_ref entry. -/
theorem scenario_copies_leave_nominal_intact :
    heapGet buildScenarios.1 buildScenarios.2.1 = doMain_nominal_params ∧
      Scenario.get? (heapGet buildScenarios.1 buildScenarios.2.1) "psi_ref" = some 1.0 ∧
      Scenario.get? (heapGet buildScenarios.1 buildScenarios.2.1) "v_ref" = some 10.0 ∧
      Scenario.get? (heapGet buildScenarios.1 buildScenarios.2.1) "a_ref" = some 0.0 ∧
      Scenario.get? (heapGet buildScenarios.1 buildScenarios.2.1) "omega_ref" = some 0.0 ∧
      buildScenarios.2.2.map
          (fun r => Scenario.get? (heapGet buildScenarios.1 r) "omega_ref") =
        [some (-1.5), some 1.5] :=
  ⟨rfl, rfl, rfl, rfl, rfl, rfl⟩

/-- C10: the drift _f never reads the scenario argument: its result is the
same for any two scenario dictionaries, on every batched state — including the
error outcomes for batch sizes other than 1. -/
theorem f_ignores_scenario_parameters (x : List StateRow)
    (params1 params2 : Scenario) :
    crazyflie_f x params1 = crazyflie_f x params2 :=
  rfl
